import Mathlib

/-!
Verification of the Rankine earth-pressure coefficient calculator
(`rankine_earth_pressures` in `src/app.py`).

The core of the program is a single pure function from a friction angle
given in degrees to three real-valued coefficients.  We embed it over the
real numbers: `math.radians` becomes `radians`, `math.sin` becomes
`Real.sin`, and the Python runtime's division-by-zero failure becomes an
explicit `Except DomainError` result.  The function computes `Ka` first
and `Kp` second, so a zero denominator `1 + sin φ` is detected before a
zero denominator `1 - sin φ`, matching the order in which the Python
code would raise.
-/

/-- The failure mode of the calculator: a zero denominator in `Ka` or `Kp`
(Python raises `ZeroDivisionError`; the specification calls it `DomainError`). -/
inductive DomainError : Type
  | divisionByZero : DomainError
deriving DecidableEq

/-- The result record of the calculator, mirroring the Python dictionary
with the three keys `Ka`, `Kp` and `Ko`. -/
structure Coefficients : Type where
  Ka : ℝ
  Kp : ℝ
  Ko : ℝ

/-- Degree-to-radian conversion, as `math.radians` in Python. -/
noncomputable def radians (deg : ℝ) : ℝ := deg * (Real.pi / 180)

/-- Shallow embedding of `rankine_earth_pressures` from `src/app.py`:
convert the input to radians, compute `Ka = (1 - sin φ) / (1 + sin φ)`,
`Kp = (1 + sin φ) / (1 - sin φ)` and `Ko = 1 - sin φ`, failing with a
`DomainError` when a denominator vanishes (first `Ka`'s, then `Kp`'s,
in the evaluation order of the source). -/
noncomputable def rankine_earth_pressures (phi_deg : ℝ) :
    Except DomainError Coefficients :=
  if 1 + Real.sin (radians phi_deg) = 0 then
    Except.error DomainError.divisionByZero
  else if 1 - Real.sin (radians phi_deg) = 0 then
    Except.error DomainError.divisionByZero
  else
    Except.ok
      { Ka := (1 - Real.sin (radians phi_deg)) / (1 + Real.sin (radians phi_deg)),
        Kp := (1 + Real.sin (radians phi_deg)) / (1 - Real.sin (radians phi_deg)),
        Ko := 1 - Real.sin (radians phi_deg) }

/-- The reactive layer recomputes the coefficients once per input change;
a batch of input changes is the map of the pure function over the inputs. -/
noncomputable def recompute (inputs : List ℝ) :
    List (Except DomainError Coefficients) :=
  inputs.map rankine_earth_pressures

/-- Unfolding lemma: away from the two singular denominators the
calculator succeeds with the three closed-form coefficients. -/
lemma rankine_eq_ok (phi_deg : ℝ)
    (h1 : 1 + Real.sin (radians phi_deg) ≠ 0)
    (h2 : 1 - Real.sin (radians phi_deg) ≠ 0) :
    rankine_earth_pressures phi_deg = Except.ok
      { Ka := (1 - Real.sin (radians phi_deg)) / (1 + Real.sin (radians phi_deg)),
        Kp := (1 + Real.sin (radians phi_deg)) / (1 - Real.sin (radians phi_deg)),
        Ko := 1 - Real.sin (radians phi_deg) } := by
  rw [rankine_earth_pressures, if_neg h1, if_neg h2]

/-- For `-90 < φ < 90` the radian value lies strictly inside `(-π/2, π/2)`. -/
lemma radians_mem_Ioo {phi : ℝ} (h1 : -90 < phi) (h2 : phi < 90) :
    -(Real.pi / 2) < radians phi ∧ radians phi < Real.pi / 2 := by
  have hp : (0 : ℝ) < Real.pi / 180 := by positivity
  constructor
  · have h := mul_lt_mul_of_pos_right h1 hp
    simp only [radians]
    nlinarith [Real.pi_pos]
  · have h := mul_lt_mul_of_pos_right h2 hp
    simp only [radians]
    nlinarith [Real.pi_pos]

/-- For `-90 < φ < 90` the sine of the radian value lies strictly in `(-1, 1)`. -/
lemma sin_radians_mem_Ioo {phi : ℝ} (h1 : -90 < phi) (h2 : phi < 90) :
    -1 < Real.sin (radians phi) ∧ Real.sin (radians phi) < 1 := by
  obtain ⟨hlo, hhi⟩ := radians_mem_Ioo h1 h2
  have hmem : radians phi ∈ Set.Icc (-(Real.pi / 2)) (Real.pi / 2) :=
    ⟨le_of_lt hlo, le_of_lt hhi⟩
  have hend1 : -(Real.pi / 2) ∈ Set.Icc (-(Real.pi / 2)) (Real.pi / 2) := by
    constructor
    · exact le_refl _
    · linarith [Real.pi_pos]
  have hend2 : Real.pi / 2 ∈ Set.Icc (-(Real.pi / 2)) (Real.pi / 2) := by
    constructor
    · linarith [Real.pi_pos]
    · exact le_refl _
  constructor
  · have h := Real.strictMonoOn_sin hend1 hmem hlo
    rwa [Real.sin_neg, Real.sin_pi_div_two] at h
  · have h := Real.strictMonoOn_sin hmem hend2 hhi
    rwa [Real.sin_pi_div_two] at h

/-- For `0 < φ < 90` the sine of the radian value lies strictly in `(0, 1)`. -/
lemma sin_radians_mem_Ioo_pos {phi : ℝ} (h1 : 0 < phi) (h2 : phi < 90) :
    0 < Real.sin (radians phi) ∧ Real.sin (radians phi) < 1 := by
  have h1' : (-90 : ℝ) < phi := by linarith
  obtain ⟨hlo, hhi⟩ := radians_mem_Ioo h1' h2
  refine ⟨?_, (sin_radians_mem_Ioo h1' h2).2⟩
  have hpos : 0 < radians phi := by
    simp only [radians]
    positivity
  exact Real.sin_pos_of_pos_of_lt_pi hpos (by linarith [Real.pi_pos])

/-- C6: at the input `φ = 0°` the calculator succeeds and returns
`Ka = Kp = Ko = 1` exactly. -/
theorem rankine_at_zero :
    rankine_earth_pressures 0 = Except.ok { Ka := 1, Kp := 1, Ko := 1 } := by
  have hs : Real.sin (radians 0) = 0 := by
    simp [radians]
  rw [rankine_eq_ok 0 (by rw [hs]; norm_num) (by rw [hs]; norm_num), hs]
  norm_num

/-- C1: for every input whose sine (after conversion to radians) avoids
`±1`, the calculator converts the angle to radians and returns the single
record with fields `Ka = (1 - sin φ) / (1 + sin φ)`,
`Kp = (1 + sin φ) / (1 - sin φ)` and `Ko = 1 - sin φ`. -/
theorem rankine_computes_contract (phi_deg : ℝ)
    (hs1 : Real.sin (radians phi_deg) ≠ 1)
    (hs2 : Real.sin (radians phi_deg) ≠ -1) :
    rankine_earth_pressures phi_deg = Except.ok
      { Ka := (1 - Real.sin (radians phi_deg)) / (1 + Real.sin (radians phi_deg)),
        Kp := (1 + Real.sin (radians phi_deg)) / (1 - Real.sin (radians phi_deg)),
        Ko := 1 - Real.sin (radians phi_deg) } := by
  refine rankine_eq_ok phi_deg ?_ ?_
  · intro h
    exact hs2 (by linarith)
  · intro h
    exact hs1 (by linarith)

/-- Witness for C1 at the concrete input `φ = 0`. -/
theorem rankine_computes_contract_witness :
    Real.sin (radians 0) ≠ 1 ∧ Real.sin (radians 0) ≠ -1 ∧
    rankine_earth_pressures 0 = Except.ok
      { Ka := (1 - Real.sin (radians 0)) / (1 + Real.sin (radians 0)),
        Kp := (1 + Real.sin (radians 0)) / (1 - Real.sin (radians 0)),
        Ko := 1 - Real.sin (radians 0) } := by
  have h1 : Real.sin (radians 0) ≠ 1 := by simp [radians]
  have h2 : Real.sin (radians 0) ≠ -1 := by simp [radians]
  exact ⟨h1, h2, rankine_computes_contract 0 h1 h2⟩

/-- C2: whenever the sine of the converted angle is `1` or `-1` (for
instance at `φ = 90°` or `φ = -90°`), the calculator fails with a
`DomainError` and produces no partial result. -/
theorem rankine_singular_domain_error (phi_deg : ℝ)
    (h : Real.sin (radians phi_deg) = 1 ∨ Real.sin (radians phi_deg) = -1) :
    rankine_earth_pressures phi_deg =
      Except.error DomainError.divisionByZero := by
  rw [rankine_earth_pressures]
  rcases h with h | h
  · rw [if_neg (by rw [h]; norm_num), if_pos (by rw [h]; ring)]
  · rw [if_pos (by rw [h]; ring)]

/-- Witness for C2 at the concrete input `φ = 90`. -/
theorem rankine_singular_domain_error_witness :
    (Real.sin (radians 90) = 1 ∨ Real.sin (radians 90) = -1) ∧
    rankine_earth_pressures 90 =
      Except.error DomainError.divisionByZero := by
  have h : Real.sin (radians 90) = 1 := by
    simp only [radians]
    rw [show (90 : ℝ) * (Real.pi / 180) = Real.pi / 2 by ring,
      Real.sin_pi_div_two]
  exact ⟨Or.inl h, rankine_singular_domain_error 90 (Or.inl h)⟩

/-- C3: for every `φ` strictly between `0°` and `90°` the calculator
succeeds and the returned coefficients satisfy the exact algebraic
identity `Ka * Kp = 1`. -/
theorem rankine_Ka_mul_Kp_eq_one (phi_deg : ℝ)
    (h0 : 0 < phi_deg) (h90 : phi_deg < 90) :
    ∃ r : Coefficients,
      rankine_earth_pressures phi_deg = Except.ok r ∧ r.Ka * r.Kp = 1 := by
  obtain ⟨hs0, hs1⟩ := sin_radians_mem_Ioo_pos h0 h90
  have hd1 : 1 + Real.sin (radians phi_deg) ≠ 0 := by linarith
  have hd2 : 1 - Real.sin (radians phi_deg) ≠ 0 := by
    intro h
    linarith
  refine ⟨_, rankine_eq_ok phi_deg hd1 hd2, ?_⟩
  have hd2' : 1 - Real.sin (radians phi_deg) ≠ 0 := hd2
  field_simp

/-- Witness for C3 at the concrete input `φ = 30`. -/
theorem rankine_Ka_mul_Kp_eq_one_witness :
    (0 : ℝ) < 30 ∧ (30 : ℝ) < 90 ∧
    ∃ r : Coefficients,
      rankine_earth_pressures 30 = Except.ok r ∧ r.Ka * r.Kp = 1 :=
  ⟨by norm_num, by norm_num,
    rankine_Ka_mul_Kp_eq_one 30 (by norm_num) (by norm_num)⟩

/-- C4: for every `φ` strictly between `0°` and `90°` the calculator
succeeds with `0 < Ka < 1`, `Kp > 1` and `0 < Ko < 1`. -/
theorem rankine_bounds (phi_deg : ℝ)
    (h0 : 0 < phi_deg) (h90 : phi_deg < 90) :
    ∃ r : Coefficients,
      rankine_earth_pressures phi_deg = Except.ok r ∧
      0 < r.Ka ∧ r.Ka < 1 ∧ 1 < r.Kp ∧ 0 < r.Ko ∧ r.Ko < 1 := by
  obtain ⟨hs0, hs1⟩ := sin_radians_mem_Ioo_pos h0 h90
  have hp1 : 0 < 1 + Real.sin (radians phi_deg) := by linarith
  have hp2 : 0 < 1 - Real.sin (radians phi_deg) := by linarith
  refine ⟨_, rankine_eq_ok phi_deg (ne_of_gt hp1) (ne_of_gt hp2), ?_, ?_, ?_, ?_, ?_⟩
  · exact div_pos hp2 hp1
  · rw [div_lt_one hp1]
    linarith
  · rw [lt_div_iff₀ hp2]
    linarith
  · exact hp2
  · linarith

/-- Witness for C4 at the concrete input `φ = 30`. -/
theorem rankine_bounds_witness :
    (0 : ℝ) < 30 ∧ (30 : ℝ) < 90 ∧
    ∃ r : Coefficients,
      rankine_earth_pressures 30 = Except.ok r ∧
      0 < r.Ka ∧ r.Ka < 1 ∧ 1 < r.Kp ∧ 0 < r.Ko ∧ r.Ko < 1 :=
  ⟨by norm_num, by norm_num, rankine_bounds 30 (by norm_num) (by norm_num)⟩

/-- The sine of the radian value is strictly monotone in the degree value
over the open interval `(-90, 90)`. -/
lemma sin_radians_strictMono {phi1 phi2 : ℝ}
    (h1 : -90 < phi1) (h12 : phi1 < phi2) (h2 : phi2 < 90) :
    Real.sin (radians phi1) < Real.sin (radians phi2) := by
  have hm1 := radians_mem_Ioo h1 (lt_trans h12 h2)
  have hm2 := radians_mem_Ioo (lt_trans h1 h12) h2
  have hlt : radians phi1 < radians phi2 := by
    have hp : (0 : ℝ) < Real.pi / 180 := by positivity
    simp only [radians]
    exact mul_lt_mul_of_pos_right h12 hp
  exact Real.strictMonoOn_sin ⟨le_of_lt hm1.1, le_of_lt hm1.2⟩
    ⟨le_of_lt hm2.1, le_of_lt hm2.2⟩ hlt

/-- C5: over `(0°, 90°)` the active coefficient `Ka` is strictly
decreasing and the passive coefficient `Kp` is strictly increasing in the
friction angle: for `0 < φ1 < φ2 < 90` both calls succeed, the second
`Ka` is strictly smaller and the second `Kp` strictly larger. -/
theorem rankine_monotone (phi1 phi2 : ℝ)
    (h0 : 0 < phi1) (h12 : phi1 < phi2) (h90 : phi2 < 90) :
    ∃ r1 r2 : Coefficients,
      rankine_earth_pressures phi1 = Except.ok r1 ∧
      rankine_earth_pressures phi2 = Except.ok r2 ∧
      r2.Ka < r1.Ka ∧ r1.Kp < r2.Kp := by
  obtain ⟨ha0, ha1⟩ := sin_radians_mem_Ioo_pos h0 (lt_trans h12 h90)
  obtain ⟨hb0, hb1⟩ := sin_radians_mem_Ioo_pos (lt_trans h0 h12) h90
  have hs : Real.sin (radians phi1) < Real.sin (radians phi2) :=
    sin_radians_strictMono (by linarith) h12 h90
  have ha1' : 0 < 1 + Real.sin (radians phi1) := by linarith
  have ha2' : 0 < 1 - Real.sin (radians phi1) := by linarith
  have hb1' : 0 < 1 + Real.sin (radians phi2) := by linarith
  have hb2' : 0 < 1 - Real.sin (radians phi2) := by linarith
  refine ⟨_, _, rankine_eq_ok phi1 (ne_of_gt ha1') (ne_of_gt ha2'),
    rankine_eq_ok phi2 (ne_of_gt hb1') (ne_of_gt hb2'), ?_, ?_⟩
  · rw [div_lt_div_iff₀ hb1' ha1']
    nlinarith
  · rw [div_lt_div_iff₀ ha2' hb2']
    nlinarith

/-- Witness for C5 at the concrete inputs `φ1 = 30`, `φ2 = 45`. -/
theorem rankine_monotone_witness :
    (0 : ℝ) < 30 ∧ (30 : ℝ) < 45 ∧ (45 : ℝ) < 90 ∧
    ∃ r1 r2 : Coefficients,
      rankine_earth_pressures 30 = Except.ok r1 ∧
      rankine_earth_pressures 45 = Except.ok r2 ∧
      r2.Ka < r1.Ka ∧ r1.Kp < r2.Kp :=
  ⟨by norm_num, by norm_num, by norm_num,
    rankine_monotone 30 45 (by norm_num) (by norm_num) (by norm_num)⟩

/-- The sine of `30°` converted to radians is exactly `1/2`. -/
lemma sin_radians_thirty : Real.sin (radians 30) = 1 / 2 := by
  simp only [radians]
  rw [show (30 : ℝ) * (Real.pi / 180) = Real.pi / 6 by ring,
    Real.sin_pi_div_six]

/-- The sine of `45°` converted to radians is exactly `√2 / 2`. -/
lemma sin_radians_forty_five : Real.sin (radians 45) = Real.sqrt 2 / 2 := by
  simp only [radians]
  rw [show (45 : ℝ) * (Real.pi / 180) = Real.pi / 4 by ring,
    Real.sin_pi_div_four]

/-- Bounds on `√2` tight enough for four displayed decimals. -/
lemma sqrt_two_bounds :
    (1.41421 : ℝ) < Real.sqrt 2 ∧ Real.sqrt 2 < (1.41422 : ℝ) := by
  have h2 : Real.sqrt 2 ^ 2 = 2 := Real.sq_sqrt (by norm_num)
  have hnn : (0 : ℝ) ≤ Real.sqrt 2 := Real.sqrt_nonneg 2
  constructor
  · nlinarith
  · nlinarith

/-- C7: at `φ = 30°` the calculator returns exactly `Ka = 1/3`, `Kp = 3`,
`Ko = 1/2`, and at `φ = 45°` it returns values within `5·10⁻⁵` of the
four-decimal displays `0.1716`, `5.8284` and `0.2929`. -/
theorem rankine_textbook_values :
    rankine_earth_pressures 30 =
      Except.ok { Ka := 1 / 3, Kp := 3, Ko := 1 / 2 } ∧
    ∃ r : Coefficients,
      rankine_earth_pressures 45 = Except.ok r ∧
      |r.Ka - 0.1716| < 0.00005 ∧ |r.Kp - 5.8284| < 0.00005 ∧
      |r.Ko - 0.2929| < 0.00005 := by
  constructor
  · rw [rankine_eq_ok 30 (by rw [sin_radians_thirty]; norm_num)
      (by rw [sin_radians_thirty]; norm_num), sin_radians_thirty]
    norm_num
  · have h2 : Real.sqrt 2 ^ 2 = 2 := Real.sq_sqrt (by norm_num)
    obtain ⟨hlo, hhi⟩ := sqrt_two_bounds
    have hd1 : 1 + Real.sin (radians 45) ≠ 0 := by
      rw [sin_radians_forty_five]
      nlinarith
    have hd2 : 1 - Real.sin (radians 45) ≠ 0 := by
      rw [sin_radians_forty_five]
      nlinarith
    refine ⟨_, rankine_eq_ok 45 hd1 hd2, ?_, ?_, ?_⟩
    · show |(1 - Real.sin (radians 45)) / (1 + Real.sin (radians 45)) - 0.1716| <
        0.00005
      rw [sin_radians_forty_five]
      have key : (1 - Real.sqrt 2 / 2) / (1 + Real.sqrt 2 / 2) =
          3 - 2 * Real.sqrt 2 := by
        have hne : 1 + Real.sqrt 2 / 2 ≠ 0 := by nlinarith
        rw [div_eq_iff hne]
        nlinarith
      rw [key, abs_lt]
      constructor
      · nlinarith
      · nlinarith
    · show |(1 + Real.sin (radians 45)) / (1 - Real.sin (radians 45)) - 5.8284| <
        0.00005
      rw [sin_radians_forty_five]
      have key : (1 + Real.sqrt 2 / 2) / (1 - Real.sqrt 2 / 2) =
          3 + 2 * Real.sqrt 2 := by
        have hne : 1 - Real.sqrt 2 / 2 ≠ 0 := by nlinarith
        rw [div_eq_iff hne]
        nlinarith
      rw [key, abs_lt]
      constructor
      · nlinarith
      · nlinarith
    · show |1 - Real.sin (radians 45) - 0.2929| < 0.00005
      rw [sin_radians_forty_five, abs_lt]
      constructor
      · nlinarith
      · nlinarith

/-- C8: for every `φ` strictly between `-90°` and `90°` both denominators
are nonzero, the division-by-zero branch is unreachable, and the
calculator returns a valid result. -/
theorem rankine_defined_on_open_interval (phi_deg : ℝ)
    (h1 : -90 < phi_deg) (h2 : phi_deg < 90) :
    1 + Real.sin (radians phi_deg) ≠ 0 ∧
    1 - Real.sin (radians phi_deg) ≠ 0 ∧
    ∃ r : Coefficients, rankine_earth_pressures phi_deg = Except.ok r := by
  obtain ⟨hlo, hhi⟩ := sin_radians_mem_Ioo h1 h2
  have hd1 : 1 + Real.sin (radians phi_deg) ≠ 0 := by
    intro h
    linarith
  have hd2 : 1 - Real.sin (radians phi_deg) ≠ 0 := by
    intro h
    linarith
  exact ⟨hd1, hd2, _, rankine_eq_ok phi_deg hd1 hd2⟩

/-- Witness for C8 at the concrete input `φ = 30` (inside the UI-exposed
range `[0, 45]`). -/
theorem rankine_defined_on_open_interval_witness :
    (-90 : ℝ) < 30 ∧ (30 : ℝ) < 90 ∧
    (1 + Real.sin (radians 30) ≠ 0 ∧
    1 - Real.sin (radians 30) ≠ 0 ∧
    ∃ r : Coefficients, rankine_earth_pressures 30 = Except.ok r) :=
  ⟨by norm_num, by norm_num,
    rankine_defined_on_open_interval 30 (by norm_num) (by norm_num)⟩

/-- C9: the calculator is deterministic and side-effect-free.  Equal
inputs give equal results, and a batch of recomputations is the
element-wise image of the pure function, so each recomputation is
independent of the order and number of the others. -/
theorem rankine_referentially_transparent :
    (∀ x y : ℝ, x = y →
      rankine_earth_pressures x = rankine_earth_pressures y) ∧
    (∀ xs ys : List ℝ, recompute (xs ++ ys) = recompute xs ++ recompute ys) ∧
    (∀ (inputs : List ℝ) (i : ℕ) (h : i < inputs.length),
      (recompute inputs).get ⟨i, by simpa [recompute] using h⟩ =
        rankine_earth_pressures (inputs.get ⟨i, h⟩)) := by
  refine ⟨fun x y h => by rw [h], fun xs ys => List.map_append _ xs ys, ?_⟩
  intro inputs i h
  simp [recompute]

/-- Witness for C9: a repeated concrete input and a concrete batch. -/
theorem rankine_referentially_transparent_witness :
    (30 : ℝ) = 30 ∧
    rankine_earth_pressures 30 = rankine_earth_pressures 30 ∧
    recompute ([30] ++ [45]) = recompute [30] ++ recompute [45] ∧
    (recompute [30, 45]).get ⟨0, by simp [recompute]⟩ =
      rankine_earth_pressures (([30, 45] : List ℝ).get ⟨0, by simp⟩) :=
  ⟨rfl, rankine_referentially_transparent.1 30 30 rfl,
    rankine_referentially_transparent.2.1 [30] [45],
    rankine_referentially_transparent.2.2 [30, 45] 0 (by simp)⟩

/-- C10: reflection symmetry.  For `-90 < φ < 90` both `φ` and `-φ` are
accepted, and the coefficients at `-φ` are the swap of those at `φ`:
`Ka(-φ) = Kp(φ)`, `Kp(-φ) = Ka(φ)`, and `Ko(-φ) = 2 - Ko(φ)`. -/
theorem rankine_reflection_symmetry (phi_deg : ℝ)
    (h1 : -90 < phi_deg) (h2 : phi_deg < 90) :
    ∃ r rneg : Coefficients,
      rankine_earth_pressures phi_deg = Except.ok r ∧
      rankine_earth_pressures (-phi_deg) = Except.ok rneg ∧
      rneg.Ka = r.Kp ∧ rneg.Kp = r.Ka ∧ rneg.Ko = 2 - r.Ko := by
  obtain ⟨hlo, hhi⟩ := sin_radians_mem_Ioo h1 h2
  have hneg : radians (-phi_deg) = -(radians phi_deg) := by
    simp only [radians]
    ring
  have hsneg : Real.sin (radians (-phi_deg)) = -Real.sin (radians phi_deg) := by
    rw [hneg, Real.sin_neg]
  have hd1 : 1 + Real.sin (radians phi_deg) ≠ 0 := by
    intro h
    linarith
  have hd2 : 1 - Real.sin (radians phi_deg) ≠ 0 := by
    intro h
    linarith
  have hd1' : 1 + Real.sin (radians (-phi_deg)) ≠ 0 := by
    rw [hsneg]
    intro h
    linarith
  have hd2' : 1 - Real.sin (radians (-phi_deg)) ≠ 0 := by
    rw [hsneg]
    intro h
    linarith
  refine ⟨_, _, rankine_eq_ok phi_deg hd1 hd2,
    rankine_eq_ok (-phi_deg) hd1' hd2', ?_, ?_, ?_⟩
  · show (1 - Real.sin (radians (-phi_deg))) / (1 + Real.sin (radians (-phi_deg))) =
      (1 + Real.sin (radians phi_deg)) / (1 - Real.sin (radians phi_deg))
    rw [hsneg]
    ring_nf
  · show (1 + Real.sin (radians (-phi_deg))) / (1 - Real.sin (radians (-phi_deg))) =
      (1 - Real.sin (radians phi_deg)) / (1 + Real.sin (radians phi_deg))
    rw [hsneg]
    ring_nf
  · show 1 - Real.sin (radians (-phi_deg)) = 2 - (1 - Real.sin (radians phi_deg))
    rw [hsneg]
    ring

/-- Witness for C10 at the concrete input `φ = 30`. -/
theorem rankine_reflection_symmetry_witness :
    (-90 : ℝ) < 30 ∧ (30 : ℝ) < 90 ∧
    ∃ r rneg : Coefficients,
      rankine_earth_pressures 30 = Except.ok r ∧
      rankine_earth_pressures (-30) = Except.ok rneg ∧
      rneg.Ka = r.Kp ∧ rneg.Kp = r.Ka ∧ rneg.Ko = 2 - r.Ko :=
  ⟨by norm_num, by norm_num,
    rankine_reflection_symmetry 30 (by norm_num) (by norm_num)⟩
